import Mathlib

/-!
# PEroxide backend — shallow embedding and verification

A shallow embedding of the PEroxide scan backend (`src/backend/src/{types,utils,
indicators,scanner,main}.rs`) together with proofs of the behavioural claims
about it.

Modelling conventions:
* Rust `String` / `&str` become Lean `String`; byte-index string operations of
  the streaming handler are modelled at character level (all characters the
  handlers themselves produce are ASCII, where byte and character indices
  coincide).
* File contents (`Vec<u8>`) become `List Nat` (each entry a byte value).
* The shared `ScanStore = Arc<Mutex<HashMap<String, ScanResult>>>` becomes an
  association list with shadowing (`insert` prepends, `get` returns the first
  hit), which has exactly the `HashMap` `get`/`insert`/`get_mut` semantics used
  by the program.  Each handler/worker is a pure function from the store it
  observes to the store it leaves behind; lock acquisition order in the source
  is the sequential order of those functions.
* Fallible filesystem reads become an `Except String (List Nat)` argument (the
  `Err` payload is the OS error message interpolated into the log line), and
  the filesystem operations a worker performs are returned as an explicit
  trace of `FsOp`s.
* `String::from_utf8_lossy` is abstracted as a `decode : List Nat → String`
  parameter: the spec treats decoding as best-effort and every claim about the
  decoded text quantifies over it.
-/

/-- Severity-tagged finding, from `types.rs` (`struct Threat`). -/
structure Threat where
  threat_type : String
  details : String
  severity : String
  threat_id : String
deriving DecidableEq, Repr

/-- Aggregate statistics, from `types.rs` (`struct ScanStats`). -/
structure ScanStats where
  threats_found : Nat
  malicious : Nat
  suspicious : Nat
  neutral : Nat
deriving DecidableEq, Repr

/-- Upload-time file metadata, from `types.rs` (`struct FileInfo`). -/
structure FileInfo where
  filename : String
  size : Nat
  sha256 : String
deriving DecidableEq, Repr

/-- One registry record, from `types.rs` (`struct ScanResult`). -/
structure ScanResult where
  status : String
  threats : List Threat
  stats : ScanStats
  logs : List String
  file_info : Option FileInfo
deriving DecidableEq, Repr

/-- The scan registry `HashMap<String, ScanResult>`, as an association list
with shadowing: the first entry for a key is its current value. -/
abbrev Store := List (String × ScanResult)

namespace Store

/-- `HashMap::get` / `contains_key`: first entry whose key matches. -/
def get (st : Store) (id : String) : Option ScanResult :=
  match st with
  | [] => none
  | (k, v) :: rest => if k = id then some v else get rest id

/-- `HashMap::insert`: the new binding shadows any previous one. -/
def insert (st : Store) (id : String) (r : ScanResult) : Store :=
  (id, r) :: st

/-- `HashMap::get_mut` followed by an in-place mutation `f`; a no-op when the
key is absent (the source guards every mutation with `if let Some`). -/
def update (st : Store) (id : String) (f : ScanResult → ScanResult) : Store :=
  match st with
  | [] => []
  | (k, v) :: rest => if k = id then (k, f v) :: rest else (k, v) :: update rest id f

@[simp] theorem get_insert_self (st : Store) (id : String) (r : ScanResult) :
    (st.insert id r).get id = some r := by
  simp [insert, get]

@[simp] theorem get_update (st : Store) (id : String) (f : ScanResult → ScanResult) :
    (st.update id f).get id = (st.get id).map f := by
  induction st with
  | nil => simp [update, get]
  | cons hd tl ih =>
    obtain ⟨k, v⟩ := hd
    by_cases h : k = id <;> simp [update, get, h, ih]

end Store

/-- Rust `str::contains` on character lists: `needle` occurs contiguously in
`hay` (the empty needle always matches, as in Rust). -/
def listContainsSub (needle : List Char) : List Char → Bool
  | [] => needle.isEmpty
  | c :: rest => needle.isPrefixOf (c :: rest) || listContainsSub needle rest

/-- Rust `str::contains(pattern)` for string pattern. -/
def strContains (hay needle : String) : Bool :=
  listContainsSub needle.data hay.data

/-- `indicators.rs`: the `Threat` pushed for the suspicious-keyword rule. -/
def s001 : Threat :=
  { threat_type := "Suspicious String"
    details := "File contains suspicious keywords"
    severity := "suspicious"
    threat_id := "S001" }

/-- `indicators.rs`: the `Threat` pushed for the process-injection rule. -/
def s002 : Threat :=
  { threat_type := "Process Injection API"
    details := "Contains process injection function calls"
    severity := "malicious"
    threat_id := "S002" }

/-- `indicators.rs`: the `Threat` pushed for the registry-modification rule. -/
def s003 : Threat :=
  { threat_type := "Registry Modification"
    details := "Contains registry manipulation functions"
    severity := "suspicious"
    threat_id := "S003" }

/-- `indicators.rs::check_indicators`: three independent keyword rules, each
appending its fixed `Threat` in program order. -/
def check_indicators (content : String) : List Threat :=
  (if strContains content "malware" || strContains content "virus" then [s001] else []) ++
    (if strContains content "CreateRemoteThread" && strContains content "VirtualAllocEx" then
      [s002] else []) ++
    (if strContains content "RegSetValue" && strContains content "RegCreateKey" then
      [s003] else [])

/-- The log line format of `utils.rs::send_progress`: `format!("[{}%] {}", progress, message)`. -/
def progressLogLine (progress : Nat) (message : String) : String :=
  "[" ++ toString progress ++ "%] " ++ message

/-- `utils.rs::send_progress`: append one progress line to the record's log,
silently doing nothing when the scan id is absent. -/
def send_progress (scan_id : String) (progress : Nat) (message : String) (st : Store) : Store :=
  st.update scan_id (fun r => { r with logs := r.logs ++ [progressLogLine progress message] })

example : check_indicators "a malware b" = [s001] := by decide
example : check_indicators "CreateRemoteThread VirtualAllocEx" = [s002] := by decide
example : check_indicators "nothing here" = [] := by decide
example : progressLogLine 10 "Reading file content..." = "[10%] Reading file content..." := rfl

/-- `scanner.rs` severity count: `threats.iter().filter(|t| t.severity == sev).count()`. -/
def countSeverity (sev : String) (threats : List Threat) : Nat :=
  (threats.filter (fun t => t.severity = sev)).length

/-- The verdict computation of `scanner.rs::scan_file` (lines 61–75): count the
severities and pick `unsafe` / `suspicious` / `safe`. -/
def verdictOf (threats : List Threat) : String :=
  let malicious_count := countSeverity "malicious" threats
  let suspicious_count := countSeverity "suspicious" threats
  let neutral_count := countSeverity "neutral" threats
  if malicious_count > 0 then "unsafe"
  else if suspicious_count > 0 || neutral_count > 0 then "suspicious"
  else "safe"

/-- Filesystem operations a worker performs, in order. -/
inductive FsOp where
  | read (path : String)
  | removeFile (path : String)
deriving DecidableEq, Repr

/-- `scanner.rs::scan_file`: the body of the spawned worker thread, as a pure
function from the read outcome and the store it observes to the store it
leaves and the trace of filesystem operations it performed.  `decode`
abstracts `String::from_utf8_lossy`; `readRes` is the outcome of
`fs::read(&file_path)` (the `Err` payload being the `{}`-formatted error).
The trailing `fs::remove_file` appears in the trace on both paths. -/
def scan_file_run (decode : List Nat → String) (file_path : String) (file_info : FileInfo)
    (scan_id : String) (readRes : Except String (List Nat)) (st : Store) :
    Store × List FsOp :=
  let st := send_progress scan_id 10 "Reading file content..." st
  match readRes with
  | .error e =>
      let st := st.update scan_id (fun r =>
        { r with status := "error", logs := r.logs ++ ["Error reading file: " ++ e] })
      (st, [.read file_path, .removeFile file_path])
  | .ok content =>
      let st := send_progress scan_id 30 "Scanning file headers..." st
      let st :=
        if 2 ≤ content.length ∧ content.take 2 = [77, 90] then
          send_progress scan_id 50 "PE executable detected, analyzing..." st
        else st
      let st := send_progress scan_id 60 "Performing signature analysis..." st
      let content_str := decode content
      let threats := check_indicators content_str
      let st := send_progress scan_id 90 "Finalizing results..." st
      let st := send_progress scan_id 100 "Scan complete!" st
      let result : ScanResult :=
        { status := verdictOf threats
          threats := threats
          stats :=
            { threats_found := threats.length
              malicious := countSeverity "malicious" threats
              suspicious := countSeverity "suspicious" threats
              neutral := countSeverity "neutral" threats }
          logs := ((st.get scan_id).map ScanResult.logs).getD []
          file_info := some file_info }
      (st.insert scan_id result, [.read file_path, .removeFile file_path])

/-- The record `main.rs::handle_upload` seeds the registry with
(lines 127–138): status `scanning`, no threats, zero stats, one 0% log line. -/
def initialScanResult (file_info : FileInfo) : ScanResult :=
  { status := "scanning"
    threats := []
    stats := { threats_found := 0, malicious := 0, suspicious := 0, neutral := 0 }
    logs := ["[0%] Initializing scan..."]
    file_info := some file_info }

/-- Responses `handle_upload` can produce after multipart parsing succeeds:
status 400 with a JSON error body, status 500 with a JSON error body, or
status 200 with the scan id. -/
inductive UploadResp where
  | badRequest (body : String)
  | serverError (body : String)
  | ok (scan_id : String)
deriving DecidableEq, Repr

/-- What `handle_upload` did: the response sent, the registry it leaves, the
file writes it attempted `(path, bytes)`, and whether a worker was spawned. -/
structure UploadOutcome where
  response : UploadResp
  store : Store
  writes : List (String × List Nat)
  spawned : Bool
deriving DecidableEq, Repr

/-- `main.rs::handle_upload`, from the size check on (lines 76–151), for one
parsed multipart part `(filename, file_data)`.  `maxFileSize` is the
`MAX_FILE_SIZE` constant from the (untracked) `config.rs` and `uploadDir` its
`UPLOAD_DIR`; `scan_id` stands for the generated `scan-{uuid}` value, `sha`
for `calculate_sha256(&file_data)`, and `writeOk` for whether
`fs::write(&file_path, &file_data)` succeeds. -/
def handle_upload_run (maxFileSize : Nat) (uploadDir : String) (scan_id sha : String)
    (writeOk : Bool) (filename : String) (file_data : List Nat) (st : Store) : UploadOutcome :=
  let file_size := file_data.length
  if file_size > maxFileSize then
    { response := .badRequest
        ("File size exceeds maximum limit of " ++ toString (maxFileSize / 1024 / 1024) ++ "MB")
      store := st
      writes := []
      spawned := false }
  else
    let file_path := uploadDir ++ "/" ++ scan_id ++ "_" ++ filename
    if writeOk then
      let file_info : FileInfo := { filename := filename, size := file_size, sha256 := sha }
      { response := .ok scan_id
        store := st.insert scan_id (initialScanResult file_info)
        writes := [(file_path, file_data)]
        spawned := true }
    else
      { response := .serverError "Failed to save file"
        store := st
        writes := [(file_path, file_data)]
        spawned := false }

/-- Response of `main.rs::handle_scan_result`: the serialized record, or a 404
`Scan not found` error. -/
inductive ResultResp where
  | ok (record : ScanResult)
  | notFound
deriving DecidableEq, Repr

/-- `main.rs::handle_scan_result` (lines 223–243): look the id up in the
registry; serialize the record if present, else respond 404.  The handler
only reads the store. -/
def handle_scan_result_run (st : Store) (scan_id : String) : ResultResp :=
  match st.get scan_id with
  | some r => .ok r
  | none => .notFound

/-- How `main.rs::handle_scan_status` begins: either it responds 404
immediately, or it proceeds into the polling loop that streams log entries. -/
inductive StatusInit where
  | notFound
  | enterPollLoop
deriving DecidableEq, Repr

/-- The guard at the top of `main.rs::handle_scan_status` (lines 157–166):
`if !store.contains_key(&scan_id)` respond 404 and return, before any polling
iteration runs; otherwise fall through to the poll loop. -/
def handle_scan_status_init (st : Store) (scan_id : String) : StatusInit :=
  if (st.get scan_id).isSome then .enterPollLoop else .notFound

/-- Rust `str::find(char)`: index of the first occurrence, if any.  Indices
are character indices; every character the handlers search for lies in the
ASCII prefix produced by `send_progress`, where they equal Rust's byte
indices. -/
def findCh (c : Char) : List Char → Option Nat
  | [] => none
  | x :: xs => if x = c then some 0 else (findCh c xs).map (· + 1)

/-- One decimal digit of `str::parse::<u32>`, if the character is a digit. -/
def digitVal (c : Char) : Option Nat :=
  if '0' ≤ c ∧ c ≤ '9' then some (c.toNat - '0'.toNat) else none

/-- Rust `str::parse::<u32>` restricted to plain decimal strings: fails on the
empty string or any non-digit character.  (The `u32` overflow failure is not
modelled; the handler only parses percentages `0..=100`.) -/
def parseNat (l : List Char) : Option Nat :=
  if l.isEmpty then none
  else l.foldl (fun acc c => acc.bind (fun n => (digitVal c).map (fun d => n * 10 + d))) (some 0)

/-- The Rust slice `log[a..b]` on a character list (the source only slices
with `a ≤ b` in bounds, where this model agrees with Rust). -/
def sliceChars (l : List Char) (a b : Nat) : List Char :=
  (l.drop a).take (b - a)

/-- The progress-extraction logic of `main.rs::handle_scan_status`
(lines 181–189): `log[start+1..end].parse::<u32>().unwrap_or(0)` between the
first `[` and the first `%`, defaulting to 0 at every failure. -/
def extractProgress (log : String) : Nat :=
  match findCh '[' log.data with
  | some start =>
      match findCh '%' log.data with
      | some e => (parseNat (sliceChars log.data (start + 1) e)).getD 0
      | none => 0
  | none => 0

/-- The message-extraction logic of `main.rs::handle_scan_status`
(lines 191–195): everything after the first `]` and the following space, or
the whole line when there is no `]`. -/
def extractMessage (log : String) : String :=
  match findCh ']' log.data with
  | some bracket_end => ⟨log.data.drop (bracket_end + 2)⟩
  | none => log

example : extractProgress "[10%] Reading file content..." = 10 := by decide
example : extractMessage "[10%] Reading file content..." = "Reading file content..." := by decide
example : extractProgress "[0%] Initializing scan..." = 0 := by decide
example : extractProgress "Error reading file: boom" = 0 := by decide

/-! ## Helper lemmas -/

/-- Every finding the built-in detector can emit carries severity
`suspicious` or `malicious`, and the three severity counts partition the
result list. -/
theorem check_indicators_partition (content : String) :
    countSeverity "malicious" (check_indicators content) +
        countSeverity "suspicious" (check_indicators content) +
        countSeverity "neutral" (check_indicators content) =
      (check_indicators content).length := by
  unfold check_indicators
  split <;> split <;> split <;> decide

theorem findCh_append_cons (c : Char) (l₁ l₂ : List Char) (h : c ∉ l₁) :
    findCh c (l₁ ++ c :: l₂) = some l₁.length := by
  induction l₁ with
  | nil => simp [findCh]
  | cons x xs ih =>
    have hx : ¬x = c := fun hxc => h (hxc ▸ List.mem_cons_self x xs)
    have hxs : c ∉ xs := fun hm => h (List.mem_cons_of_mem x hm)
    simp [findCh, hx, ih hxs]

/-- For every percentage the worker emits (`0..=100`), its decimal rendering
is nonempty, contains none of the delimiter characters the streaming handler
searches for, and parses back to the same number. -/
theorem percentDigits_facts : ∀ p < 101,
    (Nat.repr p).data ≠ [] ∧ '%' ∉ (Nat.repr p).data ∧ ']' ∉ (Nat.repr p).data ∧
      parseNat (Nat.repr p).data = some p := by decide

/-! ## Claims -/

/-- C2: the verdict computed by the scan worker is `unsafe` when the malicious
count is positive; else `suspicious` when the suspicious or the neutral count
is positive; else `safe`.  In particular findings with only neutral severity
still yield `suspicious`. -/
theorem c2_verdict_rule (threats : List Threat) :
    (0 < countSeverity "malicious" threats → verdictOf threats = "unsafe") ∧
      (countSeverity "malicious" threats = 0 →
        (0 < countSeverity "suspicious" threats ∨ 0 < countSeverity "neutral" threats) →
        verdictOf threats = "suspicious") ∧
      (countSeverity "malicious" threats = 0 → countSeverity "suspicious" threats = 0 →
        countSeverity "neutral" threats = 0 → verdictOf threats = "safe") := by
  unfold verdictOf
  refine ⟨fun h => ?_, fun h0 h1 => ?_, fun h0 h1 h2 => ?_⟩ <;> simp_all

/-- C2 witness: a single neutral finding yields `suspicious`, not `safe`. -/
theorem c2_verdict_rule_witness :
    (countSeverity "malicious" [⟨"t", "d", "neutral", "X"⟩] = 0 ∧
        (0 < countSeverity "suspicious" [⟨"t", "d", "neutral", "X"⟩] ∨
          0 < countSeverity "neutral" [⟨"t", "d", "neutral", "X"⟩])) ∧
      verdictOf [⟨"t", "d", "neutral", "X"⟩] = "suspicious" :=
  ⟨⟨by decide, by decide⟩,
    (c2_verdict_rule [⟨"t", "d", "neutral", "X"⟩]).2.1 (by decide) (by decide)⟩

/-- C10: on any input the built-in detector returns at most three findings,
as a sublist of the fixed sequence `[S001, S002, S003]` (hence in that id
order), each with severity `suspicious` or `malicious` and never `neutral`,
so the neutral branch of the verdict rule is unreachable with it. -/
theorem c10_detector_shape (content : String) :
    (check_indicators content).length ≤ 3 ∧
      (check_indicators content).Sublist [s001, s002, s003] ∧
      countSeverity "neutral" (check_indicators content) = 0 ∧
      ∀ t ∈ check_indicators content,
        t.severity = "suspicious" ∨ t.severity = "malicious" := by
  unfold check_indicators
  split <;> split <;> split <;> decide

/-- C7: for a scan id absent from the registry, the result handler responds
404 `Scan not found` (fabricating no record) and the streaming handler
responds 404 before its polling loop runs a single iteration (so no empty
stream is returned); both handlers only read the store. -/
theorem c7_unknown_id_not_found (st : Store) (scan_id : String)
    (h : st.get scan_id = none) :
    handle_scan_result_run st scan_id = .notFound ∧
      handle_scan_status_init st scan_id = .notFound := by
  simp [handle_scan_result_run, handle_scan_status_init, h]

/-- C7 witness: the empty registry at a concrete id. -/
theorem c7_unknown_id_not_found_witness :
    Store.get [] "scan-missing" = none ∧
      (handle_scan_result_run [] "scan-missing" = .notFound ∧
        handle_scan_status_init [] "scan-missing" = .notFound) :=
  ⟨by decide, c7_unknown_id_not_found [] "scan-missing" (by decide)⟩

/-- C6: an upload whose file data exceeds the configured maximum size is
rejected with a 400 client error before anything else happens: the registry
is returned unchanged, no file write is attempted, and no worker is
spawned. -/
theorem c6_oversized_upload_rejected (maxFileSize : Nat) (uploadDir scan_id sha : String)
    (writeOk : Bool) (filename : String) (file_data : List Nat) (st : Store)
    (h : file_data.length > maxFileSize) :
    handle_upload_run maxFileSize uploadDir scan_id sha writeOk filename file_data st =
      { response := .badRequest
          ("File size exceeds maximum limit of " ++ toString (maxFileSize / 1024 / 1024) ++ "MB")
        store := st
        writes := []
        spawned := false } := by
  simp [handle_upload_run, h]

/-- C6 witness: a 3-byte file against a 2-byte limit. -/
theorem c6_oversized_upload_rejected_witness :
    ([0, 0, 0] : List Nat).length > 2 ∧
      handle_upload_run 2 "uploads" "scan-1" "sha" true "a.txt" [0, 0, 0] [] =
        { response := .badRequest "File size exceeds maximum limit of 0MB"
          store := []
          writes := []
          spawned := false } :=
  ⟨by decide, c6_oversized_upload_rejected 2 "uploads" "scan-1" "sha" true "a.txt" [0, 0, 0] []
    (by decide)⟩

/-- C1: when the file read fails, the worker sets the record's status to
`error` (never leaving it `scanning`), appends a log line describing the read
failure, and its filesystem trace is exactly one read attempt followed by one
delete attempt — no retry. -/
theorem c1_read_failure_finalizes_error (decode : List Nat → String) (file_path : String)
    (file_info : FileInfo) (scan_id e : String) (st : Store) (r0 : ScanResult)
    (h : st.get scan_id = some r0) :
    ∃ r, (scan_file_run decode file_path file_info scan_id (.error e) st).1.get scan_id =
        some r ∧
      r.status = "error" ∧
      r.status ≠ "scanning" ∧
      r.logs = r0.logs ++
        [progressLogLine 10 "Reading file content...", "Error reading file: " ++ e] ∧
      (scan_file_run decode file_path file_info scan_id (.error e) st).2 =
        [.read file_path, .removeFile file_path] := by
  simp only [scan_file_run, send_progress, Store.get_update, h, Option.map_some]
  refine ⟨_, rfl, ?_, ?_, ?_, ?_⟩ <;> simp

/-- C1 witness: an error-path run on a registry seeded with the initial
record. -/
theorem c1_read_failure_finalizes_error_witness :
    Store.get [("scan-1", initialScanResult ⟨"a.txt", 3, "sha"⟩)] "scan-1" =
        some (initialScanResult ⟨"a.txt", 3, "sha"⟩) ∧
      ∃ r,
        (scan_file_run (fun _ => "") "uploads/scan-1_a.txt" ⟨"a.txt", 3, "sha"⟩ "scan-1"
              (.error "boom") [("scan-1", initialScanResult ⟨"a.txt", 3, "sha"⟩)]).1.get
            "scan-1" = some r ∧
        r.status = "error" ∧
        r.status ≠ "scanning" ∧
        r.logs = (initialScanResult ⟨"a.txt", 3, "sha"⟩).logs ++
          [progressLogLine 10 "Reading file content...", "Error reading file: " ++ "boom"] ∧
        (scan_file_run (fun _ => "") "uploads/scan-1_a.txt" ⟨"a.txt", 3, "sha"⟩ "scan-1"
            (.error "boom") [("scan-1", initialScanResult ⟨"a.txt", 3, "sha"⟩)]).2 =
          [.read "uploads/scan-1_a.txt", .removeFile "uploads/scan-1_a.txt"] :=
  ⟨by decide,
    c1_read_failure_finalizes_error (fun _ => "") "uploads/scan-1_a.txt" ⟨"a.txt", 3, "sha"⟩
      "scan-1" "boom" [("scan-1", initialScanResult ⟨"a.txt", 3, "sha"⟩)]
      (initialScanResult ⟨"a.txt", 3, "sha"⟩) (by decide)⟩

/-- C3: at the instant a normally completing scan writes its final record,
each stats field equals the count of findings with that severity,
`threatsFound` equals the length of the findings list, and
`malicious + suspicious + neutral = threatsFound = len(findings)`. -/
theorem c3_stats_consistent (decode : List Nat → String) (file_path : String)
    (file_info : FileInfo) (scan_id : String) (content : List Nat) (st : Store) :
    ∃ r, (scan_file_run decode file_path file_info scan_id (.ok content) st).1.get scan_id =
        some r ∧
      r.stats.malicious = countSeverity "malicious" r.threats ∧
      r.stats.suspicious = countSeverity "suspicious" r.threats ∧
      r.stats.neutral = countSeverity "neutral" r.threats ∧
      r.stats.threats_found = r.threats.length ∧
      r.stats.malicious + r.stats.suspicious + r.stats.neutral = r.stats.threats_found := by
  simp only [scan_file_run]
  exact ⟨_, Store.get_insert_self _ _ _, rfl, rfl, rfl, rfl,
    check_indicators_partition (decode content)⟩

/-- C5: finalization replaces status/findings/stats but writes back exactly
the log accumulated in the registry for that scan id: the finalized record's
log is the pre-finalization log — the seeded entries followed by every
progress entry up to and including the 100% one — with nothing dropped or
reordered, so the pre-finalization log is a prefix of it. -/
theorem c5_finalize_preserves_log (decode : List Nat → String) (file_path : String)
    (file_info : FileInfo) (scan_id : String) (content : List Nat) (st : Store)
    (r0 : ScanResult) (h : st.get scan_id = some r0) :
    ∃ r, (scan_file_run decode file_path file_info scan_id (.ok content) st).1.get scan_id =
        some r ∧
      r.logs = r0.logs ++
        ([progressLogLine 10 "Reading file content...",
            progressLogLine 30 "Scanning file headers..."] ++
          (if 2 ≤ content.length ∧ content.take 2 = [77, 90] then
            [progressLogLine 50 "PE executable detected, analyzing..."]
          else []) ++
          [progressLogLine 60 "Performing signature analysis...",
            progressLogLine 90 "Finalizing results...",
            progressLogLine 100 "Scan complete!"]) ∧
      r0.logs <+: r.logs := by
  by_cases hmz : 2 ≤ content.length ∧ content.take 2 = [77, 90] <;>
    [simp only [scan_file_run, send_progress, hmz, if_true];
      simp only [scan_file_run, send_progress, hmz, if_false]] <;>
    refine ⟨_, Store.get_insert_self _ _ _, ?_, ?_⟩ <;>
    simp [Store.get_update, h, List.append_assoc, List.prefix_append]

/-- C5 witness: a normal run over a seeded registry with non-`MZ` content. -/
theorem c5_finalize_preserves_log_witness :
    Store.get [("scan-1", initialScanResult ⟨"a.txt", 1, "sha"⟩)] "scan-1" =
        some (initialScanResult ⟨"a.txt", 1, "sha"⟩) ∧
      ∃ r,
        (scan_file_run (fun _ => "hi") "uploads/scan-1_a.txt" ⟨"a.txt", 1, "sha"⟩ "scan-1"
              (.ok [104]) [("scan-1", initialScanResult ⟨"a.txt", 1, "sha"⟩)]).1.get "scan-1" =
          some r ∧
        r.logs = (initialScanResult ⟨"a.txt", 1, "sha"⟩).logs ++
          ([progressLogLine 10 "Reading file content...",
              progressLogLine 30 "Scanning file headers..."] ++
            (if 2 ≤ ([104] : List Nat).length ∧ ([104] : List Nat).take 2 = [77, 90] then
              [progressLogLine 50 "PE executable detected, analyzing..."]
            else []) ++
            [progressLogLine 60 "Performing signature analysis...",
              progressLogLine 90 "Finalizing results...",
              progressLogLine 100 "Scan complete!"]) ∧
        (initialScanResult ⟨"a.txt", 1, "sha"⟩).logs <+: r.logs :=
  ⟨by decide,
    c5_finalize_preserves_log (fun _ => "hi") "uploads/scan-1_a.txt" ⟨"a.txt", 1, "sha"⟩
      "scan-1" [104] [("scan-1", initialScanResult ⟨"a.txt", 1, "sha"⟩)]
      (initialScanResult ⟨"a.txt", 1, "sha"⟩) (by decide)⟩

/-- C8: a file whose decoded text contains `"malware"` and none of the other
indicator keywords produces exactly one finding — `S001`, severity
`suspicious` — and finalizes with status `suspicious` and stats
`threatsFound = 1, malicious = 0, suspicious = 1, neutral = 0`. -/
theorem c8_malware_only_scenario (decode : List Nat → String) (file_path : String)
    (file_info : FileInfo) (scan_id : String) (content : List Nat) (st : Store)
    (h1 : strContains (decode content) "malware" = true)
    (h2 : strContains (decode content) "virus" = false)
    (h3 : strContains (decode content) "CreateRemoteThread" = false)
    (h4 : strContains (decode content) "VirtualAllocEx" = false)
    (h5 : strContains (decode content) "RegSetValue" = false)
    (h6 : strContains (decode content) "RegCreateKey" = false) :
    ∃ r, (scan_file_run decode file_path file_info scan_id (.ok content) st).1.get scan_id =
        some r ∧
      r.threats = [s001] ∧
      s001.severity = "suspicious" ∧
      r.status = "suspicious" ∧
      r.stats = ⟨1, 0, 1, 0⟩ := by
  have hind : check_indicators (decode content) = [s001] := by
    simp [check_indicators, h1, h2, h3, h4, h5, h6]
  simp only [scan_file_run]
  refine ⟨_, Store.get_insert_self _ _ _, ?_, rfl, ?_, ?_⟩ <;>
    simp [hind, verdictOf, countSeverity, s001]

/-- C4: a scan that completes normally, over a registry seeded by the upload
handler with the `[0%] Initializing scan...` entry, leaves a record whose log
percentages (as extracted by the streaming handler) are monotonically
non-decreasing and whose last entry carries percent exactly 100. -/
theorem c4_log_percents_monotone (decode : List Nat → String) (file_path : String)
    (file_info : FileInfo) (scan_id : String) (content : List Nat) (st : Store)
    (r0 : ScanResult) (h : st.get scan_id = some r0)
    (hlog : r0.logs = ["[0%] Initializing scan..."]) :
    ∃ r, (scan_file_run decode file_path file_info scan_id (.ok content) st).1.get scan_id =
        some r ∧
      List.Chain' (· ≤ ·) (r.logs.map extractProgress) ∧
      (r.logs.map extractProgress).getLast? = some 100 := by
  by_cases hmz : 2 ≤ content.length ∧ content.take 2 = [77, 90]
  · simp only [scan_file_run, send_progress]
    rw [if_pos hmz]
    refine ⟨_, Store.get_insert_self _ _ _, ?_, ?_⟩ <;>
      simp [Store.get_update, h, hlog] <;> decide
  · simp only [scan_file_run, send_progress]
    rw [if_neg hmz]
    refine ⟨_, Store.get_insert_self _ _ _, ?_, ?_⟩ <;>
      simp [Store.get_update, h, hlog] <;> decide

/-- C4 witness: a normal run over a seeded registry with non-`MZ` content. -/
theorem c4_log_percents_monotone_witness :
    (Store.get [("scan-1", initialScanResult ⟨"a.txt", 1, "sha"⟩)] "scan-1" =
          some (initialScanResult ⟨"a.txt", 1, "sha"⟩) ∧
        (initialScanResult ⟨"a.txt", 1, "sha"⟩).logs = ["[0%] Initializing scan..."]) ∧
      ∃ r,
        (scan_file_run (fun _ => "hi") "uploads/scan-1_a.txt" ⟨"a.txt", 1, "sha"⟩ "scan-1"
              (.ok [104]) [("scan-1", initialScanResult ⟨"a.txt", 1, "sha"⟩)]).1.get "scan-1" =
          some r ∧
        List.Chain' (· ≤ ·) (r.logs.map extractProgress) ∧
        (r.logs.map extractProgress).getLast? = some 100 :=
  ⟨⟨by decide, by decide⟩,
    c4_log_percents_monotone (fun _ => "hi") "uploads/scan-1_a.txt" ⟨"a.txt", 1, "sha"⟩
      "scan-1" [104] [("scan-1", initialScanResult ⟨"a.txt", 1, "sha"⟩)]
      (initialScanResult ⟨"a.txt", 1, "sha"⟩) (by decide) (by decide)⟩

/-- C8 witness: decoded text `"a malware b"`. -/
theorem c8_malware_only_scenario_witness :
    (strContains "a malware b" "malware" = true ∧
        strContains "a malware b" "virus" = false ∧
        strContains "a malware b" "CreateRemoteThread" = false ∧
        strContains "a malware b" "VirtualAllocEx" = false ∧
        strContains "a malware b" "RegSetValue" = false ∧
        strContains "a malware b" "RegCreateKey" = false) ∧
      ∃ r,
        (scan_file_run (fun _ => "a malware b") "uploads/scan-1_a.txt" ⟨"a.txt", 11, "sha"⟩
              "scan-1" (.ok []) []).1.get "scan-1" = some r ∧
        r.threats = [s001] ∧
        s001.severity = "suspicious" ∧
        r.status = "suspicious" ∧
        r.stats = ⟨1, 0, 1, 0⟩ :=
  ⟨⟨by decide, by decide, by decide, by decide, by decide, by decide⟩,
    c8_malware_only_scenario (fun _ => "a malware b") "uploads/scan-1_a.txt"
      ⟨"a.txt", 11, "sha"⟩ "scan-1" [] [] (by decide) (by decide) (by decide) (by decide)
      (by decide) (by decide)⟩

/-- C9: rendering a progress entry with `send_progress`'s log-line format and
then extracting percent and message with the streaming status handler's logic
is the identity on progress entries, for every percent in `0..=100` and every
message string. -/
theorem c9_progress_line_roundtrip (p : Nat) (hp : p ≤ 100) (m : String) :
    extractProgress (progressLogLine p m) = p ∧
      extractMessage (progressLogLine p m) = m := by
  obtain ⟨hne, hpc, hbr, hparse⟩ := percentDigits_facts p (Nat.lt_succ_of_le hp)
  have hdata : (progressLogLine p m).data =
      '[' :: ((Nat.repr p).data ++ '%' :: ']' :: ' ' :: m.data) := by
    show (("[" ++ toString p ++ "%] ") ++ m).data = _
    simp only [String.data_append, List.append_assoc]
    rfl
  have h1 : findCh '[' (progressLogLine p m).data = some 0 := by
    rw [hdata]; simp [findCh]
  have h2 : findCh '%' (progressLogLine p m).data =
      some ((Nat.repr p).data.length + 1) := by
    rw [hdata, show '[' :: ((Nat.repr p).data ++ '%' :: ']' :: ' ' :: m.data) =
        ('[' :: (Nat.repr p).data) ++ '%' :: (']' :: ' ' :: m.data) from by simp]
    rw [findCh_append_cons _ _ _ ?_]
    · simp
    · intro hmem
      rcases List.mem_cons.mp hmem with hh | hh
      · exact absurd hh (by decide)
      · exact hpc hh
  have h3 : findCh ']' (progressLogLine p m).data =
      some ((Nat.repr p).data.length + 2) := by
    rw [hdata, show '[' :: ((Nat.repr p).data ++ '%' :: ']' :: ' ' :: m.data) =
        ('[' :: ((Nat.repr p).data ++ ['%'])) ++ ']' :: (' ' :: m.data) from by simp]
    rw [findCh_append_cons _ _ _ ?_]
    · simp
    · intro hmem
      rcases List.mem_cons.mp hmem with hh | hh
      · exact absurd hh (by decide)
      · rcases List.mem_append.mp hh with hh' | hh'
        · exact hbr hh'
        · exact absurd (List.mem_singleton.mp hh') (by decide)
  refine ⟨?_, ?_⟩
  · simp only [extractProgress, h1, h2]
    have hslice : sliceChars (progressLogLine p m).data (0 + 1)
        ((Nat.repr p).data.length + 1) = (Nat.repr p).data := by
      rw [hdata]
      simp only [sliceChars, Nat.zero_add, List.drop_succ_cons, List.drop_zero,
        Nat.add_sub_cancel]
      exact List.take_left _ _
    rw [hslice, hparse]
    rfl
  · simp only [extractMessage, h3]
    rw [hdata]
    rw [show '[' :: ((Nat.repr p).data ++ '%' :: ']' :: ' ' :: m.data) =
        ('[' :: ((Nat.repr p).data ++ ['%', ']', ' '])) ++ m.data from by simp]
    rw [show (Nat.repr p).data.length + 2 + 2 =
        ('[' :: ((Nat.repr p).data ++ ['%', ']', ' '])).length from by simp]
    rw [List.drop_left]

/-- C9 witness: percent 42 with a concrete message. -/
theorem c9_progress_line_roundtrip_witness :
    42 ≤ 100 ∧
      (extractProgress (progressLogLine 42 "Scanning file headers...") = 42 ∧
        extractMessage (progressLogLine 42 "Scanning file headers...") =
          "Scanning file headers...") :=
  ⟨by decide, c9_progress_line_roundtrip 42 (by decide) "Scanning file headers..."⟩
